import Mathlib

/-
Verification of the slashing-detection core and the test-utility block
generators of this repository.

The detection core (SurroundDetector, DoubleProposalDetector,
SlashingStatusTracker) is declared in proto/slashing/slashing.proto and in
slasher/detection/attestations (whose BUILD file lists spanner.go and
attestations.go), but the Go implementation files themselves are not part of
the available sources.  Those components are therefore modelled from the
specification text (and from the data-model comments in slashing.proto, in
particular the min-max surround reference they cite).  Definitions carrying a
doc comment beginning with "Modelled from the spec:" belong to this group.

The test-utility generators (GenerateFullBlock, generateProposerSlashings,
generateAttesterSlashings) are embedded from shared/testutil/block.go, with
external collaborators (BLS signing, ssz hashing, committee derivation,
randomness) represented as explicit oracle parameters.
-/

namespace Slashing

/-- Modelled from the spec: outcome of a detector query — either no violation,
a double vote (carrying the previously recorded source epoch), a surround of a
prior vote by the new one, or the new vote being surrounded by a prior one. -/
inductive Outcome where
  | noViolation : Outcome
  | doubleVote : Nat → Outcome
  | surrounds : Outcome
  | surroundedBy : Outcome
  deriving DecidableEq

/-- Modelled from the spec: the error kinds of the detection core that the
claims exercise (InvalidInput for malformed epoch ordering, StaleInput for
epochs older than the retained window). -/
inductive DetectorError where
  | invalidInput : DetectorError
  | staleInput : DetectorError
  deriving DecidableEq

/-- Modelled from the spec: proto message MinMaxEpochSpan — the minimum and
maximum observed epoch-span distances for an epoch key; the value 0 means "no
constraint recorded" (proto3 default). -/
structure MinMaxEpochSpan where
  minEpochSpan : Nat
  maxEpochSpan : Nat
  deriving DecidableEq

def emptySpan : MinMaxEpochSpan := ⟨0, 0⟩

/-- Modelled from the spec: a validator's detection history — the sparse
epoch → MinMaxEpochSpan map (proto EpochSpanMap, entries default to {0,0}),
the target → source map and high-water mark (proto AttestationHistory). -/
structure ValidatorHistory where
  spans : Nat → MinMaxEpochSpan
  targetToSource : Nat → Option Nat
  latestEpochWritten : Nat

def emptyHistory : ValidatorHistory :=
  { spans := fun _ => emptySpan, targetToSource := fun _ => none,
    latestEpochWritten := 0 }

/-- Modelled from the spec: min-span merge.  minEpochSpan at epoch e summarises
the minimal distance from e to the target of a prior vote whose source is
larger than e; a new vote (source, target) narrows the entry at every epoch
below its source (0 is "unset" and is always replaced). -/
def updateMinSpans (spans : Nat → MinMaxEpochSpan) (source target : Nat) :
    Nat → MinMaxEpochSpan :=
  fun e =>
    if e < source then
      let c := target - e
      let m := (spans e).minEpochSpan
      if m = 0 ∨ c < m then { spans e with minEpochSpan := c } else spans e
    else spans e

/-- Modelled from the spec: max-span merge.  maxEpochSpan at epoch e summarises
the maximal distance from e to the target of a prior vote whose source is
smaller than e; a new vote (source, target) widens the entry at every epoch
strictly between its source and its target. -/
def updateMaxSpans (spans : Nat → MinMaxEpochSpan) (source target : Nat) :
    Nat → MinMaxEpochSpan :=
  fun e =>
    if source < e ∧ e < target then
      let c := target - e
      if (spans e).maxEpochSpan < c then { spans e with maxEpochSpan := c }
      else spans e
    else spans e

/-- Modelled from the spec: recording a non-slashable vote — merge the span
summaries, record target → source, advance the high-water mark. -/
def applyVote (h : ValidatorHistory) (source target : Nat) : ValidatorHistory :=
  { spans := updateMaxSpans (updateMinSpans h.spans source target) source target
    targetToSource := fun t => if t = target then some source else h.targetToSource t
    latestEpochWritten := max h.latestEpochWritten target }

/-- Modelled from the spec: SurroundDetector.check_and_update for one
validator.  Malformed input (target < source) is rejected before any mutation.
A recorded different source for the same target is a double vote, returned
immediately with no span update; an identical recorded pair is an idempotent
re-submission.  Otherwise the stored min/max spans at the new vote's source
epoch decide, in O(1), whether the new vote surrounds (min span set and
strictly smaller than the new distance) or is surrounded by (max span strictly
larger than the new distance) a prior vote; only a violation-free vote is
merged into the state. -/
def checkAndUpdate (h : ValidatorHistory) (source target : Nat) :
    Except DetectorError (Outcome × ValidatorHistory) :=
  if target < source then .error .invalidInput
  else
    match h.targetToSource target with
    | some s0 =>
      if s0 = source then .ok (.noViolation, h)
      else .ok (.doubleVote s0, h)
    | none =>
      if 0 < (h.spans source).minEpochSpan ∧
          (h.spans source).minEpochSpan < target - source then
        .ok (.surrounds, h)
      else if target - source < (h.spans source).maxEpochSpan then
        .ok (.surroundedBy, h)
      else .ok (.noViolation, applyVote h source target)

/-- Modelled from the spec: the SpanStore maps each validator index to its
history; check_and_update mutates exactly one validator's entry. -/
def SpanStore : Type := Nat → ValidatorHistory

/-- Modelled from the spec: check_and_update lifted to the whole store —
on success only validator v's entry is replaced; on error nothing is. -/
def globalCheckAndUpdate (g : SpanStore) (v source target : Nat) :
    Except DetectorError (Outcome × SpanStore) :=
  match checkAndUpdate (g v) source target with
  | .error e => .error e
  | .ok (o, h) => .ok (o, fun u => if u = v then h else g u)

/-- Modelled from the spec: the store the caller holds after a call — the
updated store on success, the unchanged store on error (no partial mutation). -/
def runGlobal (g : SpanStore) (v source target : Nat) : SpanStore :=
  match globalCheckAndUpdate g v source target with
  | .error _ => g
  | .ok (_, g1) => g1

lemma checkAndUpdate_lookup_same (h : ValidatorHistory) (s t : Nat)
    (hst : s ≤ t) (hl : h.targetToSource t = some s) :
    checkAndUpdate h s t = .ok (.noViolation, h) := by
  unfold checkAndUpdate
  rw [if_neg (Nat.not_lt.mpr hst), hl]
  simp

lemma checkAndUpdate_lookup_diff (h : ValidatorHistory) (s t s0 : Nat)
    (hst : s ≤ t) (hl : h.targetToSource t = some s0) (hne : s0 ≠ s) :
    checkAndUpdate h s t = .ok (.doubleVote s0, h) := by
  unfold checkAndUpdate
  rw [if_neg (Nat.not_lt.mpr hst), hl]
  simp [hne]

lemma checkAndUpdate_fresh (h : ValidatorHistory) (s t : Nat)
    (hst : s ≤ t) (hl : h.targetToSource t = none)
    (hmin : ¬(0 < (h.spans s).minEpochSpan ∧ (h.spans s).minEpochSpan < t - s))
    (hmax : ¬(t - s < (h.spans s).maxEpochSpan)) :
    checkAndUpdate h s t = .ok (.noViolation, applyVote h s t) := by
  unfold checkAndUpdate
  rw [if_neg (Nat.not_lt.mpr hst), hl]
  simp only [if_neg hmin, if_neg hmax]

lemma checkAndUpdate_surrounds_of (h : ValidatorHistory) (s t : Nat)
    (hst : s ≤ t) (hl : h.targetToSource t = none)
    (hmin : 0 < (h.spans s).minEpochSpan ∧ (h.spans s).minEpochSpan < t - s) :
    checkAndUpdate h s t = .ok (.surrounds, h) := by
  unfold checkAndUpdate
  rw [if_neg (Nat.not_lt.mpr hst), hl]
  simp only [if_pos hmin]

lemma checkAndUpdate_surroundedBy_of (h : ValidatorHistory) (s t : Nat)
    (hst : s ≤ t) (hl : h.targetToSource t = none)
    (hmin : ¬(0 < (h.spans s).minEpochSpan ∧ (h.spans s).minEpochSpan < t - s))
    (hmax : t - s < (h.spans s).maxEpochSpan) :
    checkAndUpdate h s t = .ok (.surroundedBy, h) := by
  unfold checkAndUpdate
  rw [if_neg (Nat.not_lt.mpr hst), hl]
  simp only [if_neg hmin, if_pos hmax]

lemma applyVote_empty_spans_between (s t e : Nat) (h1 : s < e) (h2 : e < t) :
    (applyVote emptyHistory s t).spans e = ⟨0, t - e⟩ := by
  have hne : ¬ e < s := by omega
  have hlt : 0 < t - e := by omega
  simp [applyVote, updateMaxSpans, updateMinSpans, emptyHistory, emptySpan,
    hne, h1, h2, hlt]

lemma applyVote_empty_spans_below (s t e : Nat) (h1 : e < s) :
    (applyVote emptyHistory s t).spans e = ⟨t - e, 0⟩ := by
  have hno : ¬ s < e := by omega
  simp [applyVote, updateMaxSpans, updateMinSpans, emptyHistory, emptySpan,
    h1, hno]

lemma applyVote_targetToSource (h : ValidatorHistory) (s t t0 : Nat) :
    (applyVote h s t).targetToSource t0 =
      if t0 = t then some s else h.targetToSource t0 := rfl

lemma checkAndUpdate_empty (s t : Nat) (hst : s ≤ t) :
    checkAndUpdate emptyHistory s t =
      .ok (.noViolation, applyVote emptyHistory s t) := by
  apply checkAndUpdate_fresh emptyHistory s t hst rfl
  · simp [emptyHistory, emptySpan]
  · simp [emptyHistory, emptySpan]

/-- Claim C1: for every validator and every attestation pair (s1,t1), (s2,t2)
with s1 < s2 < t2 < t1, running check_and_update for both attestations from a
fresh history, in either application order, reports the corresponding
violation after the second application: the inner vote applied second is
reported as surrounded by the outer one, and the outer vote applied second is
reported as surrounding the inner one (the s2 < s1 < t1 < t2 reading of the
claim is this same statement with the two attestations' names exchanged). -/
theorem C1_surround_detected_either_order (s1 s2 t2 t1 : Nat)
    (h12 : s1 < s2) (h2 : s2 < t2) (h21 : t2 < t1) :
    (checkAndUpdate emptyHistory s1 t1 =
        .ok (.noViolation, applyVote emptyHistory s1 t1) ∧
      checkAndUpdate (applyVote emptyHistory s1 t1) s2 t2 =
        .ok (.surroundedBy, applyVote emptyHistory s1 t1)) ∧
    (checkAndUpdate emptyHistory s2 t2 =
        .ok (.noViolation, applyVote emptyHistory s2 t2) ∧
      checkAndUpdate (applyVote emptyHistory s2 t2) s1 t1 =
        .ok (.surrounds, applyVote emptyHistory s2 t2)) := by
  have hs1t1 : s1 ≤ t1 := by omega
  have hs2t2 : s2 ≤ t2 := by omega
  refine ⟨⟨checkAndUpdate_empty s1 t1 hs1t1, ?_⟩,
          ⟨checkAndUpdate_empty s2 t2 hs2t2, ?_⟩⟩
  · have hsp : (applyVote emptyHistory s1 t1).spans s2 = ⟨0, t1 - s2⟩ :=
      applyVote_empty_spans_between s1 t1 s2 h12 (by omega)
    have hl : (applyVote emptyHistory s1 t1).targetToSource t2 = none := by
      rw [applyVote_targetToSource]
      rw [if_neg (by omega)]
      rfl
    apply checkAndUpdate_surroundedBy_of _ _ _ hs2t2 hl
    · rw [hsp]; simp
    · rw [hsp]; simp only []; omega
  · have hsp : (applyVote emptyHistory s2 t2).spans s1 = ⟨t2 - s1, 0⟩ :=
      applyVote_empty_spans_below s2 t2 s1 h12
    have hl : (applyVote emptyHistory s2 t2).targetToSource t1 = none := by
      rw [applyVote_targetToSource]
      rw [if_neg (by omega)]
      rfl
    apply checkAndUpdate_surrounds_of _ _ _ hs1t1 hl
    rw [hsp]
    constructor
    · simp only []; omega
    · simp only []; omega

/-- Witness for C1 at the concrete pair (s1,t1) = (0,3), (s2,t2) = (1,2). -/
theorem C1_witness :
    (0 : Nat) < 1 ∧ (1 : Nat) < 2 ∧ (2 : Nat) < 3 ∧
    ((checkAndUpdate emptyHistory 0 3 =
        .ok (.noViolation, applyVote emptyHistory 0 3) ∧
      checkAndUpdate (applyVote emptyHistory 0 3) 1 2 =
        .ok (.surroundedBy, applyVote emptyHistory 0 3)) ∧
     (checkAndUpdate emptyHistory 1 2 =
        .ok (.noViolation, applyVote emptyHistory 1 2) ∧
      checkAndUpdate (applyVote emptyHistory 1 2) 0 3 =
        .ok (.surrounds, applyVote emptyHistory 1 2))) :=
  ⟨by decide, by decide, by decide,
    C1_surround_detected_either_order 0 1 2 3 (by decide) (by decide) (by decide)⟩

lemma update_self_eq (g : SpanStore) (v : Nat) :
    (fun u => if u = v then g v else g u) = g := by
  funext u
  by_cases hu : u = v
  · rw [if_pos hu, hu]
  · rw [if_neg hu]

/-- Claim C2: if the validator's target_to_source map already maps the target
epoch to a source epoch different from the incoming attestation's source
epoch (the input being well-formed), check_and_update returns a double-vote
violation carrying the recorded source, immediately and with the whole store —
every validator's spans and history — unchanged (no span update in that
call). -/
theorem C2_double_vote_immediate (g : SpanStore) (v source target s0 : Nat)
    (hst : source ≤ target)
    (hl : (g v).targetToSource target = some s0) (hne : s0 ≠ source) :
    globalCheckAndUpdate g v source target = .ok (.doubleVote s0, g) := by
  unfold globalCheckAndUpdate
  rw [checkAndUpdate_lookup_diff (g v) source target s0 hst hl hne]
  show Except.ok (Outcome.doubleVote s0, fun u => if u = v then g v else g u) =
    Except.ok (Outcome.doubleVote s0, g)
  rw [update_self_eq]

/-- Witness for C2: validator 0 recorded (source 2, target 5); an attestation
with source 3 and target 5 is reported as a double vote with no update. -/
theorem C2_witness :
    (2 : Nat) ≠ 3 ∧
    globalCheckAndUpdate (fun _ => applyVote emptyHistory 2 5) 0 3 5 =
      .ok (.doubleVote 2, fun _ => applyVote emptyHistory 2 5) :=
  ⟨by decide,
    C2_double_vote_immediate (fun _ => applyVote emptyHistory 2 5) 0 3 5 2
      (by decide) rfl (by decide)⟩

/-- Claim C5: a call with target_epoch < source_epoch fails with InvalidInput
and the span/history state of every validator, including the one addressed,
is unchanged (the caller's store after the call is the store before it). -/
theorem C5_invalid_input_no_mutation (g : SpanStore) (v source target : Nat)
    (hlt : target < source) :
    globalCheckAndUpdate g v source target = .error .invalidInput ∧
      runGlobal g v source target = g := by
  have hcall : globalCheckAndUpdate g v source target = .error .invalidInput := by
    unfold globalCheckAndUpdate checkAndUpdate
    rw [if_pos hlt]
  exact ⟨hcall, by unfold runGlobal; rw [hcall]⟩

/-- Witness for C5 at validator 4 with source 9, target 2 on a store holding a
recorded vote. -/
theorem C5_witness :
    globalCheckAndUpdate (fun _ => applyVote emptyHistory 1 3) 4 9 2 =
      .error .invalidInput ∧
    runGlobal (fun _ => applyVote emptyHistory 1 3) 4 9 2 =
      (fun _ => applyVote emptyHistory 1 3) :=
  C5_invalid_input_no_mutation (fun _ => applyVote emptyHistory 1 3) 4 9 2
    (by decide)

/-- Claim C7: re-applying check_and_update with the identical (source, target)
pair that a previous, violation-free application recorded for the validator
produces no violation and leaves the validator's history exactly as it was
(idempotent re-application). -/
theorem C7_idempotent_reapplication (h k : ValidatorHistory) (s t : Nat)
    (h1 : checkAndUpdate h s t = .ok (.noViolation, k)) :
    checkAndUpdate k s t = .ok (.noViolation, k) := by
  have hst : s ≤ t := by
    by_contra hc
    unfold checkAndUpdate at h1
    rw [if_pos (by omega)] at h1
    cases h1
  unfold checkAndUpdate at h1
  rw [if_neg (Nat.not_lt.mpr hst)] at h1
  split at h1
  · rename_i s0 heq
    by_cases hs0 : s0 = s
    · subst hs0
      rw [if_pos rfl] at h1
      simp only [Except.ok.injEq, Prod.mk.injEq, true_and] at h1
      subst h1
      exact checkAndUpdate_lookup_same h s0 t hst heq
    · rw [if_neg hs0] at h1
      simp at h1
  · split at h1
    · simp at h1
    · split at h1
      · simp at h1
      · simp only [Except.ok.injEq, Prod.mk.injEq, true_and] at h1
        subst h1
        apply checkAndUpdate_lookup_same _ s t hst
        rw [applyVote_targetToSource, if_pos rfl]

/-- Witness for C7: after recording (source 1, target 2) on a fresh history,
re-applying the identical pair reports nothing and changes nothing. -/
theorem C7_witness :
    checkAndUpdate (applyVote emptyHistory 1 2) 1 2 =
      .ok (.noViolation, applyVote emptyHistory 1 2) :=
  C7_idempotent_reapplication emptyHistory (applyVote emptyHistory 1 2) 1 2
    (checkAndUpdate_empty 1 2 (by decide))

/-- Modelled from the spec: proto ProposalHistory — the rolling ring buffer of
proposal records.  The bitlist and the stored header digests are modelled
together: slot j (the residue epoch mod window_size) holds some (epoch,
digest) exactly when the bit at j is set, none when it is clear. -/
structure ProposalHistory where
  slots : Nat → Option (Nat × Nat)
  latestEpochWritten : Nat

def emptyProposalHistory : ProposalHistory :=
  { slots := fun _ => none, latestEpochWritten := 0 }

/-- Modelled from the spec: recording a proposal — set the bit at epoch mod
window_size, store the header digest, advance latest_epoch_written, and as
part of the same update clear every slot whose recorded epoch has rolled out
of the retention window (rolling prune, ring-buffer semantics). -/
def writeProposal (w : Nat) (h : ProposalHistory) (epoch digest : Nat) :
    ProposalHistory :=
  { slots := fun j =>
      if j = epoch % w then some (epoch, digest)
      else
        match h.slots j with
        | some ed => if ed.1 + w ≤ max h.latestEpochWritten epoch then none
                     else some ed
        | none => none
    latestEpochWritten := max h.latestEpochWritten epoch }

/-- Modelled from the spec: DoubleProposalDetector.check_and_update.  An epoch
older than the retained window (already rolled past) fails with StaleInput.
Otherwise read the bit at epoch mod window_size: if set and the stored digest
differs from the new one, a double-proposal violation carrying both headers;
if set and identical, an idempotent re-submission (no violation, no error);
if unset, record the proposal. -/
def proposalCheckAndUpdate (w : Nat) (h : ProposalHistory) (epoch digest : Nat) :
    Except DetectorError (Option (Nat × Nat) × ProposalHistory) :=
  if epoch + w ≤ h.latestEpochWritten then .error .staleInput
  else
    match h.slots (epoch % w) with
    | some ed =>
      if ed.2 = digest then .ok (none, h)
      else .ok (some (ed.2, digest), h)
    | none => .ok (none, writeProposal w h epoch digest)

/-- Claim C3: within the retained window, check_and_update reads the bit at
epoch mod window_size; if the bit is set and the stored header differs it
returns a double-proposal violation carrying both headers; if the bit is set
and the headers are identical it returns no violation and no error; if the
bit is unset it sets the bit, stores the header digest, and advances
latest_epoch_written. -/
theorem C3_double_proposal_cases (w : Nat) (h : ProposalHistory)
    (epoch digest : Nat) (hw : h.latestEpochWritten < epoch + w) :
    (∀ e0 d0, h.slots (epoch % w) = some (e0, d0) → d0 ≠ digest →
      proposalCheckAndUpdate w h epoch digest = .ok (some (d0, digest), h)) ∧
    (∀ e0, h.slots (epoch % w) = some (e0, digest) →
      proposalCheckAndUpdate w h epoch digest = .ok (none, h)) ∧
    (h.slots (epoch % w) = none →
      proposalCheckAndUpdate w h epoch digest =
          .ok (none, writeProposal w h epoch digest) ∧
        (writeProposal w h epoch digest).slots (epoch % w) =
          some (epoch, digest) ∧
        (writeProposal w h epoch digest).latestEpochWritten =
          max h.latestEpochWritten epoch) := by
  have hnot : ¬ epoch + w ≤ h.latestEpochWritten := by omega
  refine ⟨?_, ?_, ?_⟩
  · intro e0 d0 hl hne
    unfold proposalCheckAndUpdate
    rw [if_neg hnot, hl]
    simp [hne]
  · intro e0 hl
    unfold proposalCheckAndUpdate
    rw [if_neg hnot, hl]
    simp
  · intro hl
    refine ⟨?_, ?_, rfl⟩
    · unfold proposalCheckAndUpdate
      rw [if_neg hnot, hl]
    · unfold writeProposal
      simp

/-- Witness for C3: window 5, fresh history, epoch 3 — the unset-bit branch
records the proposal and advances the high-water mark. -/
theorem C3_witness :
    proposalCheckAndUpdate 5 emptyProposalHistory 3 77 =
        .ok (none, writeProposal 5 emptyProposalHistory 3 77) ∧
      (writeProposal 5 emptyProposalHistory 3 77).slots (3 % 5) =
        some (3, 77) ∧
      (writeProposal 5 emptyProposalHistory 3 77).latestEpochWritten =
        max emptyProposalHistory.latestEpochWritten 3 :=
  (C3_double_proposal_cases 5 emptyProposalHistory 3 77 (by decide)).2.2 rfl

/-- Claim C4: once latest_epoch_written has advanced past an epoch by the
retention window or more, a check_and_update query for that epoch fails with
StaleInput; it never returns a no-violation (or any other ok) answer for such
an epoch. -/
theorem C4_stale_epoch_rejected (w : Nat) (h : ProposalHistory)
    (epoch digest : Nat) (hstale : epoch + w ≤ h.latestEpochWritten) :
    proposalCheckAndUpdate w h epoch digest = .error .staleInput ∧
      ∀ res, proposalCheckAndUpdate w h epoch digest ≠ .ok res := by
  have hcall : proposalCheckAndUpdate w h epoch digest = .error .staleInput := by
    unfold proposalCheckAndUpdate
    rw [if_pos hstale]
  exact ⟨hcall, fun res hres => by rw [hcall] at hres; cases hres⟩

/-- Witness for C4: window 5, latest_epoch_written 20, query for epoch 2. -/
theorem C4_witness :
    proposalCheckAndUpdate 5
        (writeProposal 5 emptyProposalHistory 20 9) 2 123 =
      .error .staleInput :=
  (C4_stale_epoch_rejected 5 (writeProposal 5 emptyProposalHistory 20 9) 2 123
    (by decide)).1

/-- Modelled from the spec: proto SlashingStatusRequest.SlashingStatus. -/
inductive SlashingStatus where
  | unknown : SlashingStatus
  | active : SlashingStatus
  | included : SlashingStatus
  | reverted : SlashingStatus
  deriving DecidableEq

/-- Modelled from the spec: the transition table of the status state machine —
Unknown→Active, Active→Included, Included→Reverted, Reverted→Active, and
nothing else. -/
def validTransition : SlashingStatus → SlashingStatus → Bool
  | .unknown, .active => true
  | .active, .included => true
  | .included, .reverted => true
  | .reverted, .active => true
  | _, _ => false

inductive TrackerError where
  | invalidTransition : TrackerError
  deriving DecidableEq

/-- Modelled from the spec: a recorded slashing evidence entry — its lifecycle
status and the (immutable) evidence payload, abstracted to a number. -/
structure SlashingRecord where
  status : SlashingStatus
  evidence : Nat
  deriving DecidableEq

/-- Modelled from the spec: the tracker's queryable store, by evidence id. -/
def StatusStore : Type := Nat → Option SlashingRecord

/-- Modelled from the spec: SlashingStatusTracker.transition — an edge not in
the transition table (or an unknown id) fails with InvalidTransition; a valid
edge updates that record's status in place, discarding nothing. -/
def transition (store : StatusStore) (i : Nat) (n : SlashingStatus) :
    Except TrackerError StatusStore :=
  match store i with
  | none => .error .invalidTransition
  | some r =>
    if validTransition r.status n then
      .ok (fun j => if j = i then some { r with status := n } else store j)
    else .error .invalidTransition

/-- Modelled from the spec: the store the caller holds after a transition
call — updated on success, unchanged on error. -/
def runTransition (store : StatusStore) (i : Nat) (n : SlashingStatus) :
    StatusStore :=
  match transition store i n with
  | .ok s => s
  | .error _ => store

/-- Claim C6: transition accepts exactly the edges Unknown→Active,
Active→Included, Included→Reverted and Reverted→Active; every other requested
transition fails with InvalidTransition and leaves the record's status (and
the whole store) unchanged; and a successful transition discards no record —
every id present before, in particular every Included or Reverted record,
remains queryable with its evidence intact. -/
theorem C6_status_state_machine :
    (∀ a b, validTransition a b = true ↔
      ((a = SlashingStatus.unknown ∧ b = SlashingStatus.active) ∨
       (a = SlashingStatus.active ∧ b = SlashingStatus.included) ∨
       (a = SlashingStatus.included ∧ b = SlashingStatus.reverted) ∨
       (a = SlashingStatus.reverted ∧ b = SlashingStatus.active))) ∧
    (∀ store i n r, store i = some r → validTransition r.status n = true →
      transition store i n =
        .ok (fun j => if j = i then some { r with status := n } else store j)) ∧
    (∀ store i n r, store i = some r → validTransition r.status n = false →
      transition store i n = .error .invalidTransition ∧
        runTransition store i n = store) ∧
    (∀ store i n s1, transition store i n = .ok s1 →
      ∀ j r, store j = some r →
        ∃ r1, s1 j = some r1 ∧ r1.evidence = r.evidence) := by
  refine ⟨fun a b => by cases a <;> cases b <;> simp [validTransition], ?_, ?_, ?_⟩
  · intro store i n r hl hv
    unfold transition
    rw [hl]
    simp only [hv, if_pos]
  · intro store i n r hl hv
    have hcall : transition store i n = .error .invalidTransition := by
      unfold transition
      rw [hl]
      simp [hv]
    exact ⟨hcall, by unfold runTransition; rw [hcall]⟩
  · intro store i n s1 hok j r hj
    unfold transition at hok
    split at hok
    · cases hok
    · rename_i r0 hl0
      split at hok
      · simp only [Except.ok.injEq] at hok
        subst hok
        by_cases hji : j = i
        · subst hji
          rw [hj] at hl0
          injection hl0 with hr0
          subst hr0
          exact ⟨{ r with status := n }, by simp, rfl⟩
        · exact ⟨r, by simp [hji, hj], rfl⟩
      · cases hok

/-- Witness for C6: a store holding one Active record — the direct
Active→Reverted edge is rejected with the store unchanged, and the
Active→Included edge succeeds. -/
theorem C6_witness :
    (transition (fun i => if i = 0 then some ⟨SlashingStatus.active, 7⟩ else none)
        0 SlashingStatus.reverted = .error .invalidTransition ∧
      runTransition
          (fun i => if i = 0 then some ⟨SlashingStatus.active, 7⟩ else none)
          0 SlashingStatus.reverted =
        (fun i => if i = 0 then some ⟨SlashingStatus.active, 7⟩ else none)) ∧
    transition (fun i => if i = 0 then some ⟨SlashingStatus.active, 7⟩ else none)
        0 SlashingStatus.included =
      .ok (fun j => if j = 0 then some ⟨SlashingStatus.included, 7⟩
            else if j = 0 then some ⟨SlashingStatus.active, 7⟩ else none) :=
  ⟨C6_status_state_machine.2.2.1
      (fun i => if i = 0 then some ⟨SlashingStatus.active, 7⟩ else none)
      0 SlashingStatus.reverted ⟨SlashingStatus.active, 7⟩ rfl rfl,
    C6_status_state_machine.2.1
      (fun i => if i = 0 then some ⟨SlashingStatus.active, 7⟩ else none)
      0 SlashingStatus.included ⟨SlashingStatus.active, 7⟩ rfl rfl⟩

end Slashing

namespace Testutil

/-- Failure of a generator: shared/testutil/block.go aborts via t.Fatal on any
error from a collaborator; all such aborts are one error value here, since the
aborted run returns nothing. -/
inductive GenError where
  | fatal : GenError
  deriving DecidableEq

lemma except_bind_ok {ε α β : Type} (x : Except ε α) (f : α → Except ε β)
    (b : β) :
    x >>= f = Except.ok b ↔ ∃ a, x = Except.ok a ∧ f a = Except.ok b := by
  cases x with
  | error e =>
    show Except.error e = Except.ok b ↔ _
    constructor
    · intro hh; cases hh
    · rintro ⟨a, ha, -⟩; cases ha
  | ok a =>
    show f a = Except.ok b ↔ _
    constructor
    · intro hh; exact ⟨a, rfl, hh⟩
    · rintro ⟨a2, ha2, hfa⟩
      injection ha2 with ha2
      rw [ha2]; exact hfa

lemma except_pure_ok {ε α : Type} (a b : α) :
    (pure a : Except ε α) = Except.ok b ↔ a = b := by
  show Except.ok a = Except.ok b ↔ a = b
  constructor
  · intro hh; injection hh
  · intro hh; rw [hh]

/-- Embedded from block.go: the fields of ethpb.BeaconBlockHeader this file
sets or reads; proto zero values are the field defaults, roots and signatures
are abstracted to numbers produced by the hashing/signing oracles. -/
structure BeaconBlockHeader where
  slot : Nat := 0
  parentRoot : Nat := 0
  stateRoot : Nat := 0
  bodyRoot : List Nat := []
  signature : Nat := 0
  deriving DecidableEq

structure Checkpoint where
  epoch : Nat := 0
  root : List Nat := []
  deriving DecidableEq

/-- Embedded from block.go: the fields of ethpb.AttestationData that
generateAttesterSlashings sets (the remaining proto fields keep their zero
values and are not read by the claims). -/
structure AttestationData where
  target : Checkpoint := {}
  source : Checkpoint := {}
  deriving DecidableEq

structure Attestation where
  data : AttestationData
  aggregationBits : List Bool := []
  signature : Nat := 0
  deriving DecidableEq

structure IndexedAttestation where
  attestingIndices : List Nat := []
  data : AttestationData
  signature : Nat := 0
  deriving DecidableEq

structure ProposerSlashing where
  proposerIndex : Nat
  header_1 : BeaconBlockHeader
  header_2 : BeaconBlockHeader
  deriving DecidableEq

structure AttesterSlashing where
  attestation_1 : IndexedAttestation
  attestation_2 : IndexedAttestation
  deriving DecidableEq

structure VoluntaryExit where
  epoch : Nat := 0
  validatorIndex : Nat := 0
  signature : Nat := 0
  deriving DecidableEq

/-- Embedded from block.go: the beacon-state fields this file reads or writes.
Slot is the only field the file mutates.  activeValidatorCount stands for the
external helpers.ActiveValidatorCount oracle (its error path is modelled as a
zero count, which aborts exactly where the Go code calls t.Fatal). -/
structure BeaconState where
  slot : Nat
  eth1Data : Nat := 0
  eth1DepositIndex : Nat := 0
  latestBlockHeader : BeaconBlockHeader := {}
  activeValidatorCount : Nat := 1
  deriving DecidableEq

structure BeaconBlockBody where
  eth1Data : Nat
  randaoReveal : List Nat
  proposerSlashings : List ProposerSlashing
  attesterSlashings : List AttesterSlashing
  attestations : List Attestation
  voluntaryExits : List VoluntaryExit
  deposits : List Nat
  deriving DecidableEq

structure BeaconBlock where
  slot : Nat
  parentRoot : Nat
  stateRoot : Nat := 0
  body : BeaconBlockBody
  signature : Nat := 0
  deriving DecidableEq

/-- Embedded from block.go: BlockGenConfig. -/
structure BlockGenConfig where
  maxProposerSlashings : Nat
  maxAttesterSlashings : Nat
  maxAttestations : Nat
  maxDeposits : Nat
  maxVoluntaryExits : Nat
  signatures : Bool

/-- Oracles for the external collaborators of block.go (randomness, BLS
signing with its domain folded in, ssz hashing, committee and epoch helpers,
beacon-chain state processing, and the test-deposit helpers defined outside
this file).  Each Go call site reads one oracle; calls that can fail in Go
return Except. -/
structure Externals where
  randVals : Nat → Nat
  attRandCommittee : Nat → Nat
  attRandVal : Nat → Nat
  exitRand : Nat → Nat
  maxCommitteesPerSlot : Nat
  zeroHash : List Nat
  signingRootHeader : BeaconBlockHeader → Nat
  signingRootExit : VoluntaryExit → Nat
  signingRootBlock : BeaconBlock → Nat
  hashTreeRootState : BeaconState → Nat
  dataRoot : AttestationData → Nat
  sign : Nat → Nat → Nat
  aggregate : List Nat → Nat
  beaconCommittee : Nat → Nat → Except GenError (List Nat)
  convertToIndexed : Attestation → Except GenError IndexedAttestation
  generateAttestations : BeaconState → Except GenError (List Attestation)
  createRandaoReveal : BeaconState → Except GenError (List Nat)
  beaconProposerIndex : BeaconState → Except GenError Nat
  calculateStateRoot : BeaconState → BeaconBlock → Except GenError Nat
  prevEpoch : BeaconState → Nat
  setupInitialDeposits : Nat → List Nat
  generateEth1Data : List Nat → Nat

/-- Embedded from block.go randValIndex: a random index below the active
validator count; a zero count (the ActiveValidatorCount failure path) aborts. -/
def randValIndex (st : BeaconState) (r : Nat) : Except GenError Nat :=
  if st.activeValidatorCount = 0 then .error .fatal
  else .ok (r % st.activeValidatorCount)

/-- Embedded from block.go generateProposerSlashings, iterating over the loop
indices: each iteration draws a random proposer, builds two headers at the
state's slot with body roots [0,1,0] and [0,2,0], and signs both with that
proposer's key. -/
def generateProposerSlashingsAux (ext : Externals) (st : BeaconState) :
    List Nat → Except GenError (List ProposerSlashing)
  | [] => .ok []
  | i :: rest => do
    let proposerIndex ← randValIndex st (ext.randVals i)
    let h1 : BeaconBlockHeader := { slot := st.slot, bodyRoot := [0, 1, 0] }
    let header1 : BeaconBlockHeader :=
      { h1 with signature := ext.sign proposerIndex (ext.signingRootHeader h1) }
    let h2 : BeaconBlockHeader := { slot := st.slot, bodyRoot := [0, 2, 0] }
    let header2 : BeaconBlockHeader :=
      { h2 with signature := ext.sign proposerIndex (ext.signingRootHeader h2) }
    let tail ← generateProposerSlashingsAux ext st rest
    pure ({ proposerIndex := proposerIndex, header_1 := header1,
            header_2 := header2 } :: tail)

/-- Embedded from block.go generateProposerSlashings (the loop runs i = 0 ..
numSlashings-1, filling the result slice in order). -/
def generateProposerSlashings (ext : Externals) (st : BeaconState)
    (numSlashings : Nat) : Except GenError (List ProposerSlashing) :=
  generateProposerSlashingsAux ext st (List.range numSlashings)

/-- The header that generateProposerSlashings builds for proposer idx with the
given body root: the state's slot, the body root, and the proposer's
signature over the unsigned header. -/
def signedProposalHeader (ext : Externals) (st : BeaconState) (idx : Nat)
    (root : List Nat) : BeaconBlockHeader :=
  { slot := st.slot, bodyRoot := root,
    signature :=
      ext.sign idx (ext.signingRootHeader { slot := st.slot, bodyRoot := root }) }

lemma generateProposerSlashingsAux_spec (ext : Externals) (st : BeaconState) :
    ∀ (l : List Nat) (out : List ProposerSlashing),
      generateProposerSlashingsAux ext st l = .ok out →
      out.length = l.length ∧
      ∀ sl ∈ out,
        sl.header_1 = signedProposalHeader ext st sl.proposerIndex [0, 1, 0] ∧
        sl.header_2 = signedProposalHeader ext st sl.proposerIndex [0, 2, 0]
  | [], out, h => by
    unfold generateProposerSlashingsAux at h
    injection h with h
    subst h
    exact ⟨rfl, fun sl hsl => absurd hsl (List.not_mem_nil sl)⟩
  | i :: rest, out, h => by
    unfold generateProposerSlashingsAux at h
    rw [except_bind_ok] at h
    obtain ⟨idx, hidx, h⟩ := h
    rw [except_bind_ok] at h
    obtain ⟨tail, htail, h⟩ := h
    rw [except_pure_ok] at h
    subst h
    obtain ⟨hlen, hmem⟩ := generateProposerSlashingsAux_spec ext st rest tail htail
    refine ⟨by simp [hlen], ?_⟩
    intro sl hsl
    rcases List.mem_cons.mp hsl with hhead | htl
    · subst hhead
      exact ⟨rfl, rfl⟩
    · exact hmem sl htl

/-- Claim C8: on success, generateProposerSlashings returns exactly n records;
in each record the two headers carry the state's current slot, the record's
single proposer index signs both headers, and the body roots ([0,1,0] and
[0,2,0]) differ — a well-formed double-proposal pair. -/
theorem C8_proposer_slashings_shape (ext : Externals) (st : BeaconState)
    (n : Nat) (out : List ProposerSlashing)
    (h : generateProposerSlashings ext st n = .ok out) :
    out.length = n ∧
    ∀ sl ∈ out,
      sl.header_1.slot = st.slot ∧ sl.header_2.slot = st.slot ∧
      sl.header_1.bodyRoot ≠ sl.header_2.bodyRoot ∧
      sl.header_1 = signedProposalHeader ext st sl.proposerIndex [0, 1, 0] ∧
      sl.header_2 = signedProposalHeader ext st sl.proposerIndex [0, 2, 0] := by
  obtain ⟨hlen, hmem⟩ :=
    generateProposerSlashingsAux_spec ext st (List.range n) out h
  refine ⟨by simp [hlen], ?_⟩
  intro sl hsl
  obtain ⟨h1, h2⟩ := hmem sl hsl
  refine ⟨by rw [h1]; rfl, by rw [h2]; rfl, ?_, h1, h2⟩
  rw [h1, h2]
  simp [signedProposalHeader]

/-- A trivial instantiation of the oracle bundle for the witnesses. -/
def extDemo : Externals :=
  { randVals := fun _ => 0, attRandCommittee := fun _ => 0,
    attRandVal := fun _ => 0, exitRand := fun _ => 0,
    maxCommitteesPerSlot := 4, zeroHash := List.replicate 32 0,
    signingRootHeader := fun _ => 0, signingRootExit := fun _ => 0,
    signingRootBlock := fun _ => 0, hashTreeRootState := fun _ => 0,
    dataRoot := fun _ => 0, sign := fun _ _ => 0, aggregate := fun _ => 0,
    beaconCommittee := fun _ _ => .ok [0],
    convertToIndexed := fun a =>
      .ok { attestingIndices := [0], data := a.data, signature := a.signature },
    generateAttestations := fun _ => .ok [],
    createRandaoReveal := fun _ => .ok [9],
    beaconProposerIndex := fun _ => .ok 0,
    calculateStateRoot := fun _ _ => .ok 0,
    prevEpoch := fun _ => 0, setupInitialDeposits := fun n => List.replicate n 0,
    generateEth1Data := fun _ => 0 }

def stDemo : BeaconState := { slot := 3 }

/-- The slashing record that extDemo and stDemo produce on every iteration. -/
def demoSlashing : ProposerSlashing :=
  { proposerIndex := 0,
    header_1 := { slot := 3, bodyRoot := [0, 1, 0] },
    header_2 := { slot := 3, bodyRoot := [0, 2, 0] } }

/-- Witness for C8: two slashings generated on a one-validator state at
slot 3. -/
theorem C8_witness :
    (generateProposerSlashings extDemo stDemo 2 =
        .ok [demoSlashing, demoSlashing]) ∧
    ∀ sl ∈ [demoSlashing, demoSlashing],
      sl.header_1.slot = stDemo.slot ∧ sl.header_2.slot = stDemo.slot ∧
      sl.header_1.bodyRoot ≠ sl.header_2.bodyRoot ∧
      sl.header_1 = signedProposalHeader extDemo stDemo sl.proposerIndex [0, 1, 0] ∧
      sl.header_2 = signedProposalHeader extDemo stDemo sl.proposerIndex [0, 2, 0] :=
  ⟨rfl, (C8_proposer_slashings_shape extDemo stDemo 2 [demoSlashing, demoSlashing] rfl).2⟩

/-- The first attestation's data on iteration i of generateAttesterSlashings:
target epoch i, source epoch i + 1, both roots the protocol zero hash. -/
def attSlashingData1 (ext : Externals) (i : Nat) : AttestationData :=
  { target := { epoch := i, root := ext.zeroHash },
    source := { epoch := i + 1, root := ext.zeroHash } }

/-- The second attestation's data on iteration i of generateAttesterSlashings:
target epoch i, source epoch i, both roots the protocol zero hash. -/
def attSlashingData2 (ext : Externals) (i : Nat) : AttestationData :=
  { target := { epoch := i, root := ext.zeroHash },
    source := { epoch := i, root := ext.zeroHash } }

/-- Embedded from block.go generateAttesterSlashings, iterating over the loop
indices: each iteration picks a random committee of the state's slot, builds
two attestations over attSlashingData1/attSlashingData2 with one aggregation
bit set, signs each with a random committee member's key, converts both to
indexed form, and pairs them into a slashing.  An empty committee aborts (the
Go code would take a remainder modulo zero). -/
def generateAttesterSlashingsAux (ext : Externals) (st : BeaconState) :
    List Nat → Except GenError (List AttesterSlashing)
  | [] => .ok []
  | i :: rest => do
    let committee ←
      ext.beaconCommittee st.slot (ext.attRandCommittee i % ext.maxCommitteesPerSlot)
    if hcs : committee.length = 0 then .error .fatal
    else do
      let aggregationBits := (List.range committee.length).map (fun b => b == i)
      let valIndex :=
        committee.get ⟨ext.attRandVal i % committee.length,
          Nat.mod_lt _ (Nat.pos_of_ne_zero hcs)⟩
      let att1 : Attestation :=
        { data := attSlashingData1 ext i, aggregationBits := aggregationBits,
          signature :=
            ext.aggregate [ext.sign valIndex (ext.dataRoot (attSlashingData1 ext i))] }
      let att2 : Attestation :=
        { data := attSlashingData2 ext i, aggregationBits := aggregationBits,
          signature :=
            ext.aggregate [ext.sign valIndex (ext.dataRoot (attSlashingData2 ext i))] }
      let indexedAtt1 ← ext.convertToIndexed att1
      let indexedAtt2 ← ext.convertToIndexed att2
      let tail ← generateAttesterSlashingsAux ext st rest
      pure ({ attestation_1 := indexedAtt1, attestation_2 := indexedAtt2 } :: tail)

/-- Embedded from block.go generateAttesterSlashings (the loop runs i = 0 ..
numSlashings-1, filling the result slice in order). -/
def generateAttesterSlashings (ext : Externals) (st : BeaconState)
    (numSlashings : Nat) : Except GenError (List AttesterSlashing) :=
  generateAttesterSlashingsAux ext st (List.range numSlashings)

lemma generateAttesterSlashingsAux_spec (ext : Externals) (st : BeaconState)
    (hconv : ∀ a ia, ext.convertToIndexed a = .ok ia → ia.data = a.data) :
    ∀ (l : List Nat) (out : List AttesterSlashing),
      generateAttesterSlashingsAux ext st l = .ok out →
      out.length = l.length ∧
      ∀ k (hk : k < out.length) (hk2 : k < l.length),
        (out.get ⟨k, hk⟩).attestation_1.data =
            attSlashingData1 ext (l.get ⟨k, hk2⟩) ∧
        (out.get ⟨k, hk⟩).attestation_2.data =
            attSlashingData2 ext (l.get ⟨k, hk2⟩)
  | [], out, h => by
    unfold generateAttesterSlashingsAux at h
    injection h with h
    subst h
    exact ⟨rfl, fun k hk hk2 => absurd hk (Nat.not_lt_zero k)⟩
  | i :: rest, out, h => by
    unfold generateAttesterSlashingsAux at h
    rw [except_bind_ok] at h
    obtain ⟨committee, hcom, h⟩ := h
    split at h
    · cases h
    · rename_i hcs
      rw [except_bind_ok] at h
      obtain ⟨ia1, hia1, h⟩ := h
      rw [except_bind_ok] at h
      obtain ⟨ia2, hia2, h⟩ := h
      rw [except_bind_ok] at h
      obtain ⟨tail, htail, h⟩ := h
      rw [except_pure_ok] at h
      subst h
      obtain ⟨hlen, hidx⟩ :=
        generateAttesterSlashingsAux_spec ext st hconv rest tail htail
      refine ⟨by simp [hlen], ?_⟩
      intro k hk hk2
      cases k with
      | zero => exact ⟨hconv _ _ hia1, hconv _ _ hia2⟩
      | succ k0 =>
        exact hidx k0 (by simpa using hk) (by simpa using hk2)

/-- Claim C9: on success, for every index i below n, the i-th AttesterSlashing
of generateAttesterSlashings holds two attestations whose target epoch is i,
the first with source epoch i + 1 and the second with source epoch i: the pair
shares a target with differing sources (double-vote shape), and the first
attestation's source epoch exceeds its target epoch. -/
theorem C9_attester_slashings_shape (ext : Externals) (st : BeaconState)
    (n : Nat) (out : List AttesterSlashing)
    (hconv : ∀ a ia, ext.convertToIndexed a = .ok ia → ia.data = a.data)
    (h : generateAttesterSlashings ext st n = .ok out) :
    out.length = n ∧
    ∀ k (hk : k < out.length),
      (out.get ⟨k, hk⟩).attestation_1.data.target.epoch = k ∧
      (out.get ⟨k, hk⟩).attestation_1.data.source.epoch = k + 1 ∧
      (out.get ⟨k, hk⟩).attestation_2.data.target.epoch = k ∧
      (out.get ⟨k, hk⟩).attestation_2.data.source.epoch = k ∧
      (out.get ⟨k, hk⟩).attestation_1.data.source.epoch ≠
        (out.get ⟨k, hk⟩).attestation_2.data.source.epoch ∧
      (out.get ⟨k, hk⟩).attestation_1.data.target.epoch <
        (out.get ⟨k, hk⟩).attestation_1.data.source.epoch := by
  obtain ⟨hlen, hidx⟩ :=
    generateAttesterSlashingsAux_spec ext st hconv (List.range n) out h
  have hlen2 : out.length = n := by simpa using hlen
  refine ⟨hlen2, ?_⟩
  intro k hk
  have hk2 : k < (List.range n).length := hlen ▸ hk
  obtain ⟨h1, h2⟩ := hidx k hk hk2
  have hval : (List.range n).get ⟨k, hk2⟩ = k := by simp
  rw [hval] at h1 h2
  rw [h1, h2]
  refine ⟨rfl, rfl, rfl, rfl, by simp [attSlashingData1, attSlashingData2], ?_⟩
  simp [attSlashingData1]

/-- The attester slashing that extDemo and stDemo produce on iteration 0. -/
def demoAttSlashing : AttesterSlashing :=
  { attestation_1 :=
      { attestingIndices := [0], data := attSlashingData1 extDemo 0,
        signature := 0 },
    attestation_2 :=
      { attestingIndices := [0], data := attSlashingData2 extDemo 0,
        signature := 0 } }

/-- Witness for C9: one slashing generated with the trivial oracles (whose
indexed-attestation conversion preserves the attestation data). -/
theorem C9_witness :
    [demoAttSlashing].length = 1 ∧
    ∀ k (hk : k < [demoAttSlashing].length),
      ([demoAttSlashing].get ⟨k, hk⟩).attestation_1.data.target.epoch = k ∧
      ([demoAttSlashing].get ⟨k, hk⟩).attestation_1.data.source.epoch = k + 1 ∧
      ([demoAttSlashing].get ⟨k, hk⟩).attestation_2.data.target.epoch = k ∧
      ([demoAttSlashing].get ⟨k, hk⟩).attestation_2.data.source.epoch = k ∧
      ([demoAttSlashing].get ⟨k, hk⟩).attestation_1.data.source.epoch ≠
        ([demoAttSlashing].get ⟨k, hk⟩).attestation_2.data.source.epoch ∧
      ([demoAttSlashing].get ⟨k, hk⟩).attestation_1.data.target.epoch <
        ([demoAttSlashing].get ⟨k, hk⟩).attestation_1.data.source.epoch :=
  C9_attester_slashings_shape extDemo stDemo 1 [demoAttSlashing]
    (fun a ia hh => by injection hh with hh; rw [← hh]) rfl

/-- Embedded from block.go generateDepositsAndEth1Data: build deposits up to
the state's deposit index plus the requested count, return the new tail and
the matching eth1 data. -/
def generateDepositsAndEth1Data (ext : Externals) (st : BeaconState)
    (numDeposits : Nat) : List Nat × Nat :=
  let currentDeposits := ext.setupInitialDeposits (st.eth1DepositIndex + numDeposits)
  (currentDeposits.drop st.eth1DepositIndex, ext.generateEth1Data currentDeposits)

/-- Embedded from block.go generateVoluntaryExits, iterating over the loop
indices: each iteration draws a random validator and signs an exit at the
previous epoch. -/
def generateVoluntaryExitsAux (ext : Externals) (st : BeaconState) :
    List Nat → Except GenError (List VoluntaryExit)
  | [] => .ok []
  | i :: rest => do
    let valIndex ← randValIndex st (ext.exitRand i)
    let exit0 : VoluntaryExit :=
      { epoch := ext.prevEpoch st, validatorIndex := valIndex }
    let exit1 : VoluntaryExit :=
      { exit0 with signature := ext.sign valIndex (ext.signingRootExit exit0) }
    let tail ← generateVoluntaryExitsAux ext st rest
    pure (exit1 :: tail)

/-- Embedded from block.go generateVoluntaryExits. -/
def generateVoluntaryExits (ext : Externals) (st : BeaconState)
    (numExits : Nat) : Except GenError (List VoluntaryExit) :=
  generateVoluntaryExitsAux ext st (List.range numExits)

/-- Embedded from block.go GenerateFullBlock.  The beacon state is threaded
explicitly (Go mutates the pointed-to state); the only field the function
writes is Slot, temporarily set to the requested slot in the two
signature-dependent branches (randao reveal and proposer index are functions
of the state slot) and restored to the entry slot afterwards.  t.Fatal aborts
are the error case, which returns no state. -/
def GenerateFullBlock (ext : Externals) (st0 : BeaconState)
    (conf : BlockGenConfig) (slot : Nat) :
    Except GenError (BeaconBlock × BeaconState) :=
  if st0.slot > slot then .error .fatal
  else
    (if 0 < conf.maxProposerSlashings then
        generateProposerSlashings ext st0 conf.maxProposerSlashings
      else pure []) >>= fun pSlashings =>
    (if 0 < conf.maxAttesterSlashings then
        generateAttesterSlashings ext st0 conf.maxAttesterSlashings
      else pure []) >>= fun aSlashings =>
    (if 0 < conf.maxAttestations then ext.generateAttestations st0
      else pure []) >>= fun atts =>
    let depositsEth1 :=
      if 0 < conf.maxDeposits then generateDepositsAndEth1Data ext st0 conf.maxDeposits
      else ([], st0.eth1Data)
    (if 0 < conf.maxVoluntaryExits then
        generateVoluntaryExits ext st0 conf.maxVoluntaryExits
      else pure []) >>= fun exits =>
    let newHeader : BeaconBlockHeader :=
      { st0.latestBlockHeader with stateRoot := ext.hashTreeRootState st0 }
    (if conf.signatures then
        ext.createRandaoReveal { st0 with slot := slot } >>= fun r =>
        pure (r, { ({ st0 with slot := slot } : BeaconState) with slot := st0.slot })
      else pure ([1, 2, 3, 4], st0)) >>= fun revealSt =>
    let block0 : BeaconBlock :=
      { slot := slot, parentRoot := ext.signingRootHeader newHeader,
        body :=
          { eth1Data := depositsEth1.2, randaoReveal := revealSt.1,
            proposerSlashings := pSlashings, attesterSlashings := aSlashings,
            attestations := atts, voluntaryExits := exits,
            deposits := depositsEth1.1 } }
    ext.calculateStateRoot revealSt.2 block0 >>= fun root =>
    let block1 : BeaconBlock := { block0 with stateRoot := root }
    if conf.signatures then
      let blockRoot := ext.signingRootBlock block1
      ext.beaconProposerIndex { revealSt.2 with slot := slot } >>= fun proposerIdx =>
      pure ({ block1 with signature := ext.sign proposerIdx blockRoot },
        { ({ revealSt.2 with slot := slot } : BeaconState) with slot := st0.slot })
    else pure (block1, revealSt.2)

/-- Claim C10: whenever GenerateFullBlock returns (succeeds), the returned
beacon state's Slot equals its value at entry — both signature-dependent
branches that temporarily set the slot to the requested one restore the
original current slot. -/
theorem C10_slot_restored (ext : Externals) (st0 : BeaconState)
    (conf : BlockGenConfig) (slot : Nat) (b : BeaconBlock) (st1 : BeaconState)
    (h : GenerateFullBlock ext st0 conf slot = .ok (b, st1)) :
    st1.slot = st0.slot := by
  unfold GenerateFullBlock at h
  by_cases hle : st0.slot > slot
  · rw [if_pos hle] at h
    cases h
  · rw [if_neg hle] at h
    rw [except_bind_ok] at h
    obtain ⟨pSlashings, -, h⟩ := h
    rw [except_bind_ok] at h
    obtain ⟨aSlashings, -, h⟩ := h
    rw [except_bind_ok] at h
    obtain ⟨atts, -, h⟩ := h
    rw [except_bind_ok] at h
    obtain ⟨exits, -, h⟩ := h
    rw [except_bind_ok] at h
    obtain ⟨revealSt, hreveal, h⟩ := h
    rw [except_bind_ok] at h
    obtain ⟨root, -, h⟩ := h
    have hrs : revealSt.2.slot = st0.slot := by
      by_cases hsig : conf.signatures
      · rw [if_pos hsig, except_bind_ok] at hreveal
        obtain ⟨r, -, hreveal⟩ := hreveal
        rw [except_pure_ok] at hreveal
        rw [← hreveal]
      · rw [if_neg hsig, except_pure_ok] at hreveal
        rw [← hreveal]
    by_cases hsig : conf.signatures
    · rw [if_pos hsig, except_bind_ok] at h
      obtain ⟨proposerIdx, -, h⟩ := h
      rw [except_pure_ok] at h
      have hst : st1 = { revealSt.2 with slot := st0.slot } :=
        congrArg Prod.snd h.symm
      rw [hst]
    · rw [if_neg hsig, except_pure_ok] at h
      have hst : st1 = revealSt.2 := congrArg Prod.snd h.symm
      rw [hst, hrs]

def confDemo : BlockGenConfig :=
  { maxProposerSlashings := 0, maxAttesterSlashings := 0, maxAttestations := 0,
    maxDeposits := 0, maxVoluntaryExits := 0, signatures := true }

/-- The block that GenerateFullBlock produces from extDemo, stDemo and
confDemo at slot 5 (all oracles return zero; the randao reveal is [9]). -/
def demoBlock : BeaconBlock :=
  { slot := 5, parentRoot := 0, stateRoot := 0,
    body :=
      { eth1Data := 0, randaoReveal := [9], proposerSlashings := [],
        attesterSlashings := [], attestations := [], voluntaryExits := [],
        deposits := [] },
    signature := 0 }

/-- Witness for C10: a signed block generated at slot 5 from a state at slot 3
returns the state with slot 3 intact. -/
theorem C10_witness :
    GenerateFullBlock extDemo stDemo confDemo 5 = .ok (demoBlock, stDemo) ∧
    stDemo.slot = stDemo.slot :=
  ⟨rfl, C10_slot_restored extDemo stDemo confDemo 5 demoBlock stDemo rfl⟩

end Testutil
